import Mathlib

/-!
Shallow embedding of `src/samples/rust-basic/src/math.rs`.

The Rust file defines two free functions and one struct:

  pub fn add(a: i32, b: i32) -> i32 { a + b }
  pub fn uses_add() -> i32 { add(10, 20) }
  pub struct Greeter { pub name: String }
  impl Greeter { pub fn greet(&self) -> String { format!("hello {}", self.name) } }

`i32` values are embedded as `Int` together with the reduction `wrap32`
into the representable interval [-2^31, 2^31).  Rust release-mode `+` on
`i32` has two's-complement wraparound semantics, so `a + b` on `i32` is
embedded as `wrap32 (a + b)`.  `String` is embedded as Lean `String` and
`format!("hello {}", self.name)` as `"hello " ++ name`.
-/

/-- Reduce an integer to the unique representative of its residue class
modulo 2^32 lying in the signed 32-bit interval [-2147483648, 2147483648). -/
def wrap32 (n : Int) : Int :=
  (n + 2147483648) % 4294967296 - 2147483648

/-- `pub fn add(a: i32, b: i32) -> i32 { a + b }` — two's-complement
32-bit addition (release-mode wraparound semantics). -/
def add (a b : Int) : Int :=
  wrap32 (a + b)

/-- `pub fn uses_add() -> i32 { add(10, 20) }` -/
def uses_add : Int :=
  add 10 20

/-- `pub struct Greeter { pub name: String }` -/
structure Greeter where
  name : String

/-- `pub fn greet(&self) -> String { format!("hello {}", self.name) }` -/
def Greeter.greet (g : Greeter) : String :=
  "hello " ++ g.name

/-- The same call with the receiver state made explicit: `greet` takes
`&self` (a shared borrow) and returns the formatted string; the receiver
it hands back is untouched. -/
def Greeter.greetCall (g : Greeter) : String × Greeter :=
  (g.greet, g)

/-- `add` with an explicit error channel: the body `a + b` contains no
panicking or fallible construct under wraparound semantics, so the
embedding never uses the `none` branch. -/
def addOpt (a b : Int) : Option Int :=
  some (wrap32 (a + b))

/-- `uses_add` with an explicit error channel. -/
def uses_addOpt : Option Int :=
  addOpt 10 20

/-- `greet` with an explicit error channel: string formatting in the body
has no failure case. -/
def Greeter.greetOpt (g : Greeter) : Option String :=
  some ("hello " ++ g.name)

/-- Spec-side formulation for claim C1: the sum reduced modulo 2^32 and
then reinterpreted as a signed 32-bit integer. -/
def addSpecModular (a b : Int) : Int :=
  let u := (a + b) % 4294967296
  if u < 2147483648 then u else u - 4294967296

/-- Claim C1: for all integers `a` and `b` (in particular all i32 values),
`add a b` equals `(a + b)` reduced modulo 2^32 and reinterpreted as a
signed 32-bit integer. -/
theorem add_is_wrapping_mod_2_32 (a b : Int) :
    add a b = addSpecModular a b := by
  unfold add wrap32 addSpecModular
  dsimp only
  split <;> omega

/-- Claim C2, counterexample: at `a = 2147483647` (i32::MAX) and `b = 1`
the wrapped result is `-2147483648`, not the mathematical sum `2147483648`. -/
theorem add_overflow_counterexample :
    add 2147483647 1 ≠ 2147483647 + 1 := by decide

/-- Claim C2 (amended): `add a b` equals the mathematical sum `a + b`
whenever that sum is itself representable as an i32, i.e. lies in
[-2^31, 2^31). -/
theorem add_eq_sum_of_representable (a b : Int)
    (h1 : -2147483648 ≤ a + b) (h2 : a + b < 2147483648) :
    add a b = a + b := by
  unfold add wrap32
  omega

/-- Witness for `add_eq_sum_of_representable` at `a = 3`, `b = 4`. -/
theorem add_eq_sum_of_representable_witness :
    -2147483648 ≤ (3 : Int) + 4 ∧ (3 : Int) + 4 < 2147483648 ∧
      add 3 4 = 3 + 4 :=
  ⟨by decide, by decide, add_eq_sum_of_representable 3 4 (by decide) (by decide)⟩

/-- Claim C3: `uses_add` takes no arguments, returns `add 10 20`, and
always yields the fixed constant 30. -/
theorem uses_add_eq_thirty :
    uses_add = add 10 20 ∧ uses_add = 30 :=
  ⟨rfl, by decide⟩

/-- Claim C4: for every `Greeter`, `greet` returns the literal
`"hello "` concatenated with `name`; in particular on `"World"` it
returns `"hello World"` and on `""` it returns `"hello "`. -/
theorem greet_is_hello_concat :
    (∀ g : Greeter, g.greet = "hello " ++ g.name) ∧
      Greeter.greet ⟨"World"⟩ = "hello World" ∧
      Greeter.greet ⟨""⟩ = "hello " :=
  ⟨fun _ => rfl, by decide, by decide⟩

/-- Claim C5: no operation has an error path — with the error channel
made explicit, `add`, `uses_add` and `Greeter.greet` return a value on
every input. -/
theorem no_error_paths (a b : Int) (g : Greeter) :
    (addOpt a b).isSome ∧ uses_addOpt.isSome ∧ g.greetOpt.isSome :=
  ⟨rfl, rfl, rfl⟩

/-- Claim C6: `add` is commutative. -/
theorem add_comm_all (a b : Int) : add a b = add b a := by
  unfold add
  rw [Int.add_comm]

/-- Claim C7: all operations are deterministic — calling `greet` again
on the receiver handed back by a first call yields the same string, and
`add` and `uses_add` depend only on their arguments. -/
theorem operations_deterministic (g : Greeter) (a b : Int) :
    g.greetCall.1 = g.greetCall.2.greetCall.1 ∧
      add a b = add a b ∧ uses_add = uses_add :=
  ⟨rfl, rfl, rfl⟩

/-- Claim C8: a `Greeter` is immutable — `greet` hands back its receiver
unchanged, so after any number of calls the `name` field is untouched. -/
theorem greet_preserves_name (g : Greeter) (n : Nat) :
    g.greetCall.2 = g ∧
      ((fun h : Greeter => h.greetCall.2)^[n] g).name = g.name := by
  refine ⟨rfl, ?_⟩
  induction n with
  | zero => rfl
  | succ n ih => rw [Function.iterate_succ_apply]; exact ih

/-- Claim C9: `greet` is injective in `name` — two greetings coincide
exactly when the names do, and the name is recovered from the greeting by
dropping the six characters of the fixed leading literal `"hello "`. -/
theorem greet_injective_in_name :
    (∀ g1 g2 : Greeter, g1.greet = g2.greet ↔ g1.name = g2.name) ∧
      (∀ g : Greeter, g.greet.data.drop 6 = g.name.data) := by
  constructor
  · rintro ⟨⟨d1⟩⟩ ⟨⟨d2⟩⟩
    simp [Greeter.greet, String.ext_iff, String.data_append]
  · rintro ⟨⟨d⟩⟩
    show (("hello ").data ++ d).drop 6 = d
    rfl

/-- Claim C10: zero is a two-sided identity for `add` on every i32
value. -/
theorem add_zero_identity (a : Int)
    (h1 : -2147483648 ≤ a) (h2 : a < 2147483648) :
    add a 0 = a ∧ add 0 a = a := by
  unfold add wrap32
  omega

/-- Witness for `add_zero_identity` at `a = 7`. -/
theorem add_zero_identity_witness :
    -2147483648 ≤ (7 : Int) ∧ (7 : Int) < 2147483648 ∧
      (add 7 0 = 7 ∧ add 0 7 = 7) :=
  ⟨by decide, by decide, add_zero_identity 7 (by decide) (by decide)⟩
